import Mathlib

/-!
Verification of `update_tokens_table.py`, a single-purpose source patcher.

The script reads one UI component file, applies five fixed literal
substitutions (Python `str.replace`) in a hardcoded order, and writes the
result back to the same path.  We embed the five `(old, new)` literal pairs
byte for byte (braces are written `\x7b`/`\x7d` and apostrophes `\x27`,
purely as string escapes), translate Python's `str.replace` to character
lists, and model the script's I/O as a trace of filesystem operations.
-/

namespace UpdateTokensTable

/-- The `old_v` literal of the patch script (source lines). -/
def old_v : String :=
  "                  <Popup\n                    trigger=\x7b\n                      <Button\n                        size=\"mini\"\n                        icon\n                        onClick=\x7b() => toggleKeyVisibility(token.id)\x7d\n                      >\n                        <Icon name=\x7bshowKeys[token.id] ? \x27eye slash\x27 : \x27eye\x27\x7d />\n                      </Button>\n                    \x7d\n                    content=\x7bshowKeys[token.id] ? t(\x27common:hide\x27) : t(\x27common:show\x27)\x7d\n                    basic\n                    inverted\n                  />"

/-- The `new_v` literal of the patch script (source lines). -/
def new_v : String :=
  "                  <Popup\n                    trigger=\x7b\n                      <Button\n                        size=\"mini\"\n                        icon\n                        onClick=\x7b() => toggleKeyVisibility(token.id)\x7d\n                        aria-label=\x7bshowKeys[token.id] ? t(\x27common:hide\x27, \x27Hide\x27) : t(\x27common:show\x27, \x27Show\x27)\x7d\n                      >\n                        <Icon name=\x7bshowKeys[token.id] ? \x27eye slash\x27 : \x27eye\x27\x7d />\n                      </Button>\n                    \x7d\n                    content=\x7bshowKeys[token.id] ? t(\x27common:hide\x27, \x27Hide\x27) : t(\x27common:show\x27, \x27Show\x27)\x7d\n                    basic\n                    inverted\n                  />"

/-- The `old_c` literal of the patch script (source lines). -/
def old_c : String :=
  "                  <Popup\n                    trigger=\x7b\n                      <Button\n                        size=\"mini\"\n                        icon\n                        onClick=\x7b() => copyTokenKey(token.key)\x7d\n                      >\n                        <Icon name=\"copy\" />\n                      </Button>\n                    \x7d\n                    content=\x7bt(\x27common:copy\x27)\x7d\n                    basic\n                    inverted\n                  />"

/-- The `new_c` literal of the patch script (source lines). -/
def new_c : String :=
  "                  <Popup\n                    trigger=\x7b\n                      <Button\n                        size=\"mini\"\n                        icon\n                        onClick=\x7b() => copyTokenKey(token.key)\x7d\n                        aria-label=\x7bt(\x27common:copy\x27, \x27Copy\x27)\x7d\n                      >\n                        <Icon name=\"copy\" />\n                      </Button>\n                    \x7d\n                    content=\x7bt(\x27common:copy\x27, \x27Copy\x27)\x7d\n                    basic\n                    inverted\n                  />"

/-- The `old_e` literal of the patch script (source lines). -/
def old_e : String :=
  "                  <Popup\n                    trigger=\x7b\n                      <Button\n                        size=\x27small\x27\n                        positive=\x7btoken.status === 1\x7d\n                        negative=\x7btoken.status !== 1\x7d\n                        onClick=\x7b() => \x7b\n                          manageToken(\n                            token.id,\n                            token.status === 1 ? \x27disable\x27 : \x27enable\x27,\n                            idx\n                          );\n                        \x7d\x7d\n                      >\n                        \x7btoken.status === 1 ? (\n                          <Icon name=\x27pause\x27 />\n                        ) : (\n                          <Icon name=\x27play\x27 />\n                        )\x7d\n                      </Button>\n                    \x7d\n                    content=\x7b\n                      token.status === 1\n                        ? t(\x27common:disable\x27)\n                        : t(\x27common:enable\x27)\n                    \x7d\n                    basic\n                    inverted\n                  />"

/-- The `new_e` literal of the patch script (source lines). -/
def new_e : String :=
  "                  <Popup\n                    trigger=\x7b\n                      <Button\n                        size=\x27small\x27\n                        positive=\x7btoken.status === 1\x7d\n                        negative=\x7btoken.status !== 1\x7d\n                        onClick=\x7b() => \x7b\n                          manageToken(\n                            token.id,\n                            token.status === 1 ? \x27disable\x27 : \x27enable\x27,\n                            idx\n                          );\n                        \x7d\x7d\n                        aria-label=\x7b\n                          token.status === 1\n                            ? t(\x27common:disable\x27, \x27Disable\x27)\n                            : t(\x27common:enable\x27, \x27Enable\x27)\n                        \x7d\n                      >\n                        \x7btoken.status === 1 ? (\n                          <Icon name=\x27pause\x27 />\n                        ) : (\n                          <Icon name=\x27play\x27 />\n                        )\x7d\n                      </Button>\n                    \x7d\n                    content=\x7b\n                      token.status === 1\n                        ? t(\x27common:disable\x27, \x27Disable\x27)\n                        : t(\x27common:enable\x27, \x27Enable\x27)\n                    \x7d\n                    basic\n                    inverted\n                  />"

/-- The `old_ed` literal of the patch script (source lines). -/
def old_ed : String :=
  "                  <Popup\n                    trigger=\x7b\n                      <Button\n                        size=\x27small\x27\n                        color=\x27blue\x27\n                        as=\x7bLink\x7d\n                        to=\x7b\x27/token/edit/\x27 + token.id\x7d\n                      >\n                        <Icon name=\x27edit\x27 />\n                      </Button>\n                    \x7d\n                    content=\x7bt(\x27common:edit\x27)\x7d\n                    basic\n                    inverted\n                  />"

/-- The `new_ed` literal of the patch script (source lines). -/
def new_ed : String :=
  "                  <Popup\n                    trigger=\x7b\n                      <Button\n                        size=\x27small\x27\n                        color=\x27blue\x27\n                        as=\x7bLink\x7d\n                        to=\x7b\x27/token/edit/\x27 + token.id\x7d\n                        aria-label=\x7bt(\x27common:edit\x27, \x27Edit\x27)\x7d\n                      >\n                        <Icon name=\x27edit\x27 />\n                      </Button>\n                    \x7d\n                    content=\x7bt(\x27common:edit\x27, \x27Edit\x27)\x7d\n                    basic\n                    inverted\n                  />"

/-- The `old_d` literal of the patch script (source lines). -/
def old_d : String :=
  "                  <Popup\n                    trigger=\x7b\n                      <Button\n                        size=\x27small\x27\n                        negative\n                        onClick=\x7b() => \x7b\n                          manageToken(token.id, \x27delete\x27, idx);\n                        \x7d\x7d\n                      >\n                        <Icon name=\x27trash\x27 />\n                      </Button>\n                    \x7d\n                    content=\x7bt(\x27common:delete\x27)\x7d\n                    basic\n                    inverted\n                  />"

/-- The `new_d` literal of the patch script (source lines). -/
def new_d : String :=
  "                  <Popup\n                    trigger=\x7b\n                      <Button\n                        size=\x27small\x27\n                        negative\n                        aria-label=\x7bt(\x27common:delete\x27, \x27Delete\x27)\x7d\n                      >\n                        <Icon name=\x27trash\x27 />\n                      </Button>\n                    \x7d\n                    on=\x27click\x27\n                    flowing\n                    hoverable\n                  >\n                    <Button\n                      negative\n                      onClick=\x7b() => \x7b\n                        manageToken(token.id, \x27delete\x27, idx);\n                      \x7d\x7d\n                    >\n                      \x7bt(\x27token.confirm_delete\x27, \x27Delete Token\x27)\x7d\n                    </Button>\n                  </Popup>"

/-- The part of `new_d` up to and including the line that closes the `trigger` prop:
the visible delete button. -/
def new_dTrigger : String :=
  "                  <Popup\n                    trigger=\x7b\n                      <Button\n                        size=\x27small\x27\n                        negative\n                        aria-label=\x7bt(\x27common:delete\x27, \x27Delete\x27)\x7d\n                      >\n                        <Icon name=\x27trash\x27 />\n                      </Button>\n                    \x7d\n"

/-- The rest of `new_d`: the popup props and the confirmation button inside the popup. -/
def new_dRest : String :=
  "                    on=\x27click\x27\n                    flowing\n                    hoverable\n                  >\n                    <Button\n                      negative\n                      onClick=\x7b() => \x7b\n                        manageToken(token.id, \x27delete\x27, idx);\n                      \x7d\x7d\n                    >\n                      \x7bt(\x27token.confirm_delete\x27, \x27Delete Token\x27)\x7d\n                    </Button>\n                  </Popup>"

/-- Python `str.replace` translated to character lists: scan left to right,
replacing each occurrence of `old` by `new` and skipping past it; when `old`
is empty, `new` is inserted before every character and at the end, as Python
does. -/
def pyReplace (old new : List Char) (s : List Char) : List Char :=
  match s with
  | [] => if old.isEmpty then new else []
  | c :: s' =>
    if old.isEmpty then new ++ c :: pyReplace old new s'
    else if old.isPrefixOf (c :: s') then new ++ pyReplace old new (s'.drop (old.length - 1))
    else c :: pyReplace old new s'
termination_by s.length
decreasing_by
  all_goals simp [ List.length_drop] <;> omega

/-- The in-memory pipeline of the script: the five `content = content.replace(...)`
statements, applied in source order, each to the previous statement's output. -/
def patch (content : List Char) : List Char :=
  let c1 := pyReplace old_v.data new_v.data content
  let c2 := pyReplace old_c.data new_c.data c1
  let c3 := pyReplace old_e.data new_e.data c2
  let c4 := pyReplace old_ed.data new_ed.data c3
  pyReplace old_d.data new_d.data c4

/-- The five replacement rules, in the order the script applies them. -/
def rules : List (String × String) :=
  [(old_v, new_v), (old_c, new_c), (old_e, new_e), (old_ed, new_ed), (old_d, new_d)]

/-- One rule's replace step. -/
def applyRule (r : String × String) (s : List Char) : List Char :=
  pyReplace r.1.data r.2.data s

/-- The single hardcoded path the script touches. -/
def targetPath : String := "web/default/src/components/TokensTable.js"

/-- A filesystem operation performed by the script. -/
inductive FsOp where
  | read : String → FsOp
  | write : String → List Char → FsOp
deriving DecidableEq

/-- The path an operation touches. -/
def FsOp.path : FsOp → String
  | .read p => p
  | .write p _ => p

/-- The script's filesystem trace: one read of the hardcoded path, then one
write of the patched content back to the same path.  `argv` and `env` are
passed to the model only to record that the script ignores them. -/
def run (_argv : List String) (_env : String → Option String) (fs : String → List Char) : List FsOp :=
  [FsOp.read targetPath, FsOp.write targetPath (patch (fs targetPath))]

/-- The writes of a trace, as (path, content) pairs. -/
def writesOf (t : List FsOp) : List (String × List Char) :=
  t.filterMap fun op => match op with
    | .read _ => none
    | .write p c => some (p, c)

/-- Exact-prefix test on character lists, written directly with `List.rec` so
that closed instances reduce iteratively inside the kernel. -/
def isPrefixB : List Char → List Char → Bool :=
  List.rec (fun _ => true)
    (fun a _ ih s =>
      match s with
      | [] => false
      | b :: s' => (a == b) && ih s')

/-- Exact-substring test (Python's `in` on strings), written with `List.rec`
likewise.  An empty pattern occurs in every buffer. -/
def hasInfixB (p : List Char) : List Char → Bool :=
  List.rec p.isEmpty
    (fun c s' ih => isPrefixB p (c :: s') || ih)

/-- Number of (possibly overlapping) start positions of `p` in a buffer. -/
def countOcc (p : List Char) : List Char → Nat :=
  List.rec 0
    (fun c s' ih => (if isPrefixB p (c :: s') then 1 else 0) + ih)

/-- A buffer split `t0 ++ old_v ++ t1 ++ old_c ++ t2 ++ old_e ++ t3 ++ old_ed ++
t4 ++ old_d ++ t5` in which each of the five old literals occurs exactly at its
designated place: no occurrence of the literal starts in or straddles the
buffer part before its block (that part taken in already-patched form, because
the earlier rules have run by the time the rule fires), and no occurrence lies
in the buffer part after its block. -/
def GoodSplit (t0 t1 t2 t3 t4 t5 : List Char) : Prop :=
  hasInfixB old_v.data (t0 ++ old_v.data).dropLast = false ∧
  hasInfixB old_v.data (t1 ++ old_c.data ++ t2 ++ old_e.data ++ t3 ++ old_ed.data ++ t4 ++ old_d.data ++ t5) = false ∧
  hasInfixB old_c.data (t0 ++ new_v.data ++ t1 ++ old_c.data).dropLast = false ∧
  hasInfixB old_c.data (t2 ++ old_e.data ++ t3 ++ old_ed.data ++ t4 ++ old_d.data ++ t5) = false ∧
  hasInfixB old_e.data (t0 ++ new_v.data ++ t1 ++ new_c.data ++ t2 ++ old_e.data).dropLast = false ∧
  hasInfixB old_e.data (t3 ++ old_ed.data ++ t4 ++ old_d.data ++ t5) = false ∧
  hasInfixB old_ed.data (t0 ++ new_v.data ++ t1 ++ new_c.data ++ t2 ++ new_e.data ++ t3 ++ old_ed.data).dropLast = false ∧
  hasInfixB old_ed.data (t4 ++ old_d.data ++ t5) = false ∧
  hasInfixB old_d.data (t0 ++ new_v.data ++ t1 ++ new_c.data ++ t2 ++ new_e.data ++ t3 ++ new_ed.data ++ t4 ++ old_d.data).dropLast = false ∧
  hasInfixB old_d.data t5 = false

theorem isPrefixB_nil_left (s : List Char) : isPrefixB [] s = true := rfl

theorem isPrefixB_cons_nil (a : Char) (p : List Char) : isPrefixB (a :: p) [] = false := rfl

theorem isPrefixB_cons_cons (a b : Char) (p s : List Char) :
    isPrefixB (a :: p) (b :: s) = ((a == b) && isPrefixB p s) := rfl

theorem hasInfixB_nil (p : List Char) : hasInfixB p [] = p.isEmpty := rfl

theorem hasInfixB_cons (p : List Char) (c : Char) (s : List Char) :
    hasInfixB p (c :: s) = (isPrefixB p (c :: s) || hasInfixB p s) := rfl

/-- `isPrefixB` decides `List.IsPrefix`. -/
theorem isPrefixB_iff (p s : List Char) : isPrefixB p s = true ↔ p <+: s := by
  induction p generalizing s with
  | nil => simp [isPrefixB_nil_left, List.nil_prefix]
  | cons a p ih =>
    cases s with
    | nil => simp [isPrefixB_cons_nil, List.prefix_nil]
    | cons b s' => simp [isPrefixB_cons_cons, List.cons_prefix_cons, ih]

/-- `hasInfixB` decides `List.IsInfix`. -/
theorem hasInfixB_iff (p s : List Char) : hasInfixB p s = true ↔ p <:+: s := by
  induction s with
  | nil => simp [hasInfixB_nil, List.infix_nil, List.isEmpty_iff]
  | cons c s' ih => simp [hasInfixB_cons, List.infix_cons_iff, isPrefixB_iff, ih]

theorem not_infix_of_hasInfixB (p s : List Char) (h : hasInfixB p s = false) :
    ¬ p <:+: s := by
  rw [← hasInfixB_iff, h]
  simp

theorem hasInfixB_ne_nil (p s : List Char) (h : hasInfixB p s = false) : p ≠ [] := by
  intro hp
  subst hp
  have hi : ([] : List Char) <:+: s := ⟨[], s, rfl⟩
  rw [← hasInfixB_iff, h] at hi
  exact Bool.false_ne_true hi

/-! Core lemmas about `pyReplace`. -/

theorem pyReplace_nil {old : List Char} (new : List Char) (h : old ≠ []) :
    pyReplace old new [] = [] := by
  cases old with
  | nil => exact absurd rfl h
  | cons a l =>
    rw [pyReplace]
    rfl

/-- If `old` does not occur in the buffer, the replace step is the identity
(the "silent no-op" of the script). -/
theorem pyReplace_of_no_occurrence {old s : List Char} (new : List Char)
    (h : hasInfixB old s = false) : pyReplace old new s = s := by
  have hne : old ≠ [] := hasInfixB_ne_nil old s h
  induction s with
  | nil => exact pyReplace_nil new hne
  | cons c s' ih =>
    rw [hasInfixB_cons, Bool.or_eq_false_iff] at h
    have hpre : ¬ old <+: (c :: s') := by
      rw [← isPrefixB_iff, h.1]
      simp
    rw [pyReplace,
      if_neg (by simp [ List.isEmpty_iff]; exact hne),
      if_neg (by rw [ List.isPrefixOf_iff_prefix]; exact hpre),
      ih h.2]

/-- If no occurrence of `old` starts inside `p` (in particular none straddles
the boundary between `p` and the following `old` block), the replace step
copies `p`, replaces the `old` block, and continues on the tail. -/
theorem pyReplace_head {old : List Char} (new p q : List Char)
    (h : hasInfixB old (p ++ old).dropLast = false) :
    pyReplace old new (p ++ (old ++ q)) = p ++ (new ++ pyReplace old new q) := by
  have hne : old ≠ [] := hasInfixB_ne_nil _ _ h
  induction p with
  | nil =>
    obtain ⟨a, old', rfl⟩ := List.exists_cons_of_ne_nil hne
    rw [List.nil_append, List.nil_append, List.cons_append, pyReplace,
      if_neg (by simp),
      if_pos (by
        rw [ List.isPrefixOf_iff_prefix, ← List.cons_append]
        exact List.prefix_append _ _)]
    simp [ List.drop_left]
  | cons c p' ih =>
    have hql : p' ++ old ≠ [] := by
      intro hE
      exact hne (List.append_eq_nil.mp hE).2
    have hdl : ((c :: p') ++ old).dropLast = c :: (p' ++ old).dropLast := by
      rw [List.cons_append, List.dropLast_cons_of_ne_nil hql]
    have h' : hasInfixB old (p' ++ old).dropLast = false := by
      rw [hdl, hasInfixB_cons, Bool.or_eq_false_iff] at h
      exact h.2
    have hpre : ¬ old <+: (c :: (p' ++ (old ++ q))) := by
      intro hp
      have h₁ : (c :: p') ++ old <+: (c :: p') ++ (old ++ q) :=
        (List.prefix_append_right_inj (c :: p')).mpr (List.prefix_append old q)
      have h₂ : ((c :: p') ++ old).dropLast <+: (c :: p') ++ (old ++ q) :=
        ( List.dropLast_prefix _).trans h₁
      have hlen : old.length ≤ ((c :: p') ++ old).dropLast.length := by
        have h5 : 1 ≤ old.length := List.length_pos.mpr hne
        rw [List.length_dropLast, List.length_append, List.length_cons]
        omega
      have h₃ : old <+: ((c :: p') ++ old).dropLast :=
        List.prefix_of_prefix_length_le (by simpa using hp) h₂ hlen
      have h₄ : old <:+: ((c :: p') ++ old).dropLast := h₃.isInfix
      rw [← hasInfixB_iff, h] at h₄
      exact Bool.false_ne_true h₄
    rw [List.cons_append, pyReplace,
      if_neg (by simp [ List.isEmpty_iff]; exact hne),
      if_neg (by rw [ List.isPrefixOf_iff_prefix]; exact hpre),
      ih h']
    rw [List.cons_append]

/-- A buffer with a single designated occurrence of `old`: the replace step
substitutes `new` exactly there and leaves everything else unchanged. -/
theorem pyReplace_single {old : List Char} (new p q : List Char)
    (h1 : hasInfixB old (p ++ old).dropLast = false)
    (h2 : hasInfixB old q = false) :
    pyReplace old new (p ++ (old ++ q)) = p ++ (new ++ q) := by
  rw [pyReplace_head new p q h1, pyReplace_of_no_occurrence new h2]

/-- Auxiliary induction (on a length bound) for the length monotonicity of a
replace step whose new literal is at least as long as its old literal. -/
theorem length_le_pyReplace_aux {old new : List Char} (h : old.length ≤ new.length) :
    ∀ (n : Nat) (s : List Char), s.length ≤ n → s.length ≤ (pyReplace old new s).length := by
  intro n
  induction n with
  | zero =>
    intro s hs
    have h0 : s.length = 0 := Nat.le_zero.mp hs
    simp [h0]
  | succ n ih =>
    intro s hs
    cases s with
    | nil => simp
    | cons c s' =>
      rw [pyReplace]
      cases hE : old.isEmpty with
      | true =>
        rw [if_pos rfl]
        have hrec := ih s' (by rw [List.length_cons] at hs; omega)
        rw [List.length_append, List.length_cons, List.length_cons]
        omega
      | false =>
        rw [if_neg (by simp)]
        have hone : 1 ≤ old.length := by
          have hnn : old ≠ [] := by
            intro h0
            subst h0
            simp at hE
          exact List.length_pos.mpr hnn
        cases hP : old.isPrefixOf (c :: s') with
        | true =>
          rw [if_pos rfl]
          have hfit : old.length ≤ s'.length + 1 := by
            have hl := ( List.isPrefixOf_iff_prefix.mp hP).length_le
            simpa using hl
          have hrec := ih (s'.drop (old.length - 1))
            (by rw [List.length_drop]; rw [List.length_cons] at hs; omega)
          rw [List.length_drop] at hrec
          rw [List.length_append, List.length_cons]
          omega
        | false =>
          rw [if_neg (by simp)]
          have hrec := ih s' (by rw [List.length_cons] at hs; omega)
          rw [List.length_cons, List.length_cons]
          omega

/-- A replace step whose new literal is at least as long as its old one never
shrinks the buffer. -/
theorem length_le_pyReplace {old new : List Char} (h : old.length ≤ new.length)
    (s : List Char) : s.length ≤ (pyReplace old new s).length :=
  length_le_pyReplace_aux h s.length s le_rfl

/-- A buffer matched by none of the five rules passes through the whole
pipeline unchanged. -/
theorem patch_of_no_match (s : List Char)
    (h : ∀ r ∈ rules, hasInfixB r.1.data s = false) : patch s = s := by
  have h1 := h (old_v, new_v) (by simp [rules])
  have h2 := h (old_c, new_c) (by simp [rules])
  have h3 := h (old_e, new_e) (by simp [rules])
  have h4 := h (old_ed, new_ed) (by simp [rules])
  have h5 := h (old_d, new_d) (by simp [rules])
  show pyReplace old_d.data new_d.data
      (pyReplace old_ed.data new_ed.data
        (pyReplace old_e.data new_e.data
          (pyReplace old_c.data new_c.data
            (pyReplace old_v.data new_v.data s)))) = s
  rw [pyReplace_of_no_occurrence _ h1, pyReplace_of_no_occurrence _ h2,
    pyReplace_of_no_occurrence _ h3, pyReplace_of_no_occurrence _ h4,
    pyReplace_of_no_occurrence _ h5]

/-- The pipeline on a buffer that splits into the five old blocks with
well-behaved surrounding text: every block is replaced by its new counterpart
and the surrounding text is untouched. -/
theorem patch_split (t0 t1 t2 t3 t4 t5 : List Char) (h : GoodSplit t0 t1 t2 t3 t4 t5) :
    patch (t0 ++ old_v.data ++ t1 ++ old_c.data ++ t2 ++ old_e.data ++ t3 ++ old_ed.data ++ t4 ++ old_d.data ++ t5) =
      t0 ++ new_v.data ++ t1 ++ new_c.data ++ t2 ++ new_e.data ++ t3 ++ new_ed.data ++ t4 ++ new_d.data ++ t5 := by
  obtain ⟨g1, g2, g3, g4, g5, g6, g7, g8, g9, g10⟩ := h
  have s1 : pyReplace old_v.data new_v.data
      (t0 ++ old_v.data ++ t1 ++ old_c.data ++ t2 ++ old_e.data ++ t3 ++ old_ed.data ++ t4 ++ old_d.data ++ t5) =
      t0 ++ new_v.data ++ t1 ++ old_c.data ++ t2 ++ old_e.data ++ t3 ++ old_ed.data ++ t4 ++ old_d.data ++ t5 := by
    rw [show t0 ++ old_v.data ++ t1 ++ old_c.data ++ t2 ++ old_e.data ++ t3 ++ old_ed.data ++ t4 ++ old_d.data ++ t5 =
        t0 ++ (old_v.data ++ (t1 ++ old_c.data ++ t2 ++ old_e.data ++ t3 ++ old_ed.data ++ t4 ++ old_d.data ++ t5)) from by
      simp [List.append_assoc]]
    rw [pyReplace_single new_v.data t0
      (t1 ++ old_c.data ++ t2 ++ old_e.data ++ t3 ++ old_ed.data ++ t4 ++ old_d.data ++ t5) g1 g2]
    simp [List.append_assoc]
  have s2 : pyReplace old_c.data new_c.data
      (t0 ++ new_v.data ++ t1 ++ old_c.data ++ t2 ++ old_e.data ++ t3 ++ old_ed.data ++ t4 ++ old_d.data ++ t5) =
      t0 ++ new_v.data ++ t1 ++ new_c.data ++ t2 ++ old_e.data ++ t3 ++ old_ed.data ++ t4 ++ old_d.data ++ t5 := by
    rw [show t0 ++ new_v.data ++ t1 ++ old_c.data ++ t2 ++ old_e.data ++ t3 ++ old_ed.data ++ t4 ++ old_d.data ++ t5 =
        (t0 ++ new_v.data ++ t1) ++ (old_c.data ++ (t2 ++ old_e.data ++ t3 ++ old_ed.data ++ t4 ++ old_d.data ++ t5)) from by
      simp [List.append_assoc]]
    rw [pyReplace_single new_c.data (t0 ++ new_v.data ++ t1)
      (t2 ++ old_e.data ++ t3 ++ old_ed.data ++ t4 ++ old_d.data ++ t5) g3 g4]
    simp [List.append_assoc]
  have s3 : pyReplace old_e.data new_e.data
      (t0 ++ new_v.data ++ t1 ++ new_c.data ++ t2 ++ old_e.data ++ t3 ++ old_ed.data ++ t4 ++ old_d.data ++ t5) =
      t0 ++ new_v.data ++ t1 ++ new_c.data ++ t2 ++ new_e.data ++ t3 ++ old_ed.data ++ t4 ++ old_d.data ++ t5 := by
    rw [show t0 ++ new_v.data ++ t1 ++ new_c.data ++ t2 ++ old_e.data ++ t3 ++ old_ed.data ++ t4 ++ old_d.data ++ t5 =
        (t0 ++ new_v.data ++ t1 ++ new_c.data ++ t2) ++ (old_e.data ++ (t3 ++ old_ed.data ++ t4 ++ old_d.data ++ t5)) from by
      simp [List.append_assoc]]
    rw [pyReplace_single new_e.data (t0 ++ new_v.data ++ t1 ++ new_c.data ++ t2)
      (t3 ++ old_ed.data ++ t4 ++ old_d.data ++ t5) g5 g6]
    simp [List.append_assoc]
  have s4 : pyReplace old_ed.data new_ed.data
      (t0 ++ new_v.data ++ t1 ++ new_c.data ++ t2 ++ new_e.data ++ t3 ++ old_ed.data ++ t4 ++ old_d.data ++ t5) =
      t0 ++ new_v.data ++ t1 ++ new_c.data ++ t2 ++ new_e.data ++ t3 ++ new_ed.data ++ t4 ++ old_d.data ++ t5 := by
    rw [show t0 ++ new_v.data ++ t1 ++ new_c.data ++ t2 ++ new_e.data ++ t3 ++ old_ed.data ++ t4 ++ old_d.data ++ t5 =
        (t0 ++ new_v.data ++ t1 ++ new_c.data ++ t2 ++ new_e.data ++ t3) ++ (old_ed.data ++ (t4 ++ old_d.data ++ t5)) from by
      simp [List.append_assoc]]
    rw [pyReplace_single new_ed.data (t0 ++ new_v.data ++ t1 ++ new_c.data ++ t2 ++ new_e.data ++ t3)
      (t4 ++ old_d.data ++ t5) g7 g8]
    simp [List.append_assoc]
  have s5 : pyReplace old_d.data new_d.data
      (t0 ++ new_v.data ++ t1 ++ new_c.data ++ t2 ++ new_e.data ++ t3 ++ new_ed.data ++ t4 ++ old_d.data ++ t5) =
      t0 ++ new_v.data ++ t1 ++ new_c.data ++ t2 ++ new_e.data ++ t3 ++ new_ed.data ++ t4 ++ new_d.data ++ t5 := by
    rw [show t0 ++ new_v.data ++ t1 ++ new_c.data ++ t2 ++ new_e.data ++ t3 ++ new_ed.data ++ t4 ++ old_d.data ++ t5 =
        (t0 ++ new_v.data ++ t1 ++ new_c.data ++ t2 ++ new_e.data ++ t3 ++ new_ed.data ++ t4) ++ (old_d.data ++ t5) from by
      simp [List.append_assoc]]
    rw [pyReplace_single new_d.data (t0 ++ new_v.data ++ t1 ++ new_c.data ++ t2 ++ new_e.data ++ t3 ++ new_ed.data ++ t4)
      t5 g9 g10]
    simp [List.append_assoc]
  show pyReplace old_d.data new_d.data
      (pyReplace old_ed.data new_ed.data
        (pyReplace old_e.data new_e.data
          (pyReplace old_c.data new_c.data
            (pyReplace old_v.data new_v.data
              (t0 ++ old_v.data ++ t1 ++ old_c.data ++ t2 ++ old_e.data ++ t3 ++ old_ed.data ++ t4 ++ old_d.data ++ t5))))) = _
  rw [s1, s2, s3, s4, s5]

/-! Claim theorems. -/

/-- C5: the patcher equals the sequential composition of the five rule
substitutions in the fixed hardcoded order (visibility-toggle, copy,
enable/disable, edit, delete), each rule operating on the output buffer of the
previous rule. -/
theorem claim_C5 (s : List Char) :
    patch s = rules.foldl (fun acc r => applyRule r acc) s := rfl

/-- C8: the script reads exactly one filesystem path and writes exactly that
same path, fixed as the relative path of the UI component source file; its
trace does not depend on command-line arguments or environment variables. -/
theorem claim_C8 (argv : List String) (env : String → Option String) (fs : String → List Char) :
    run argv env fs = run [] (fun _ => none) fs ∧
    (run argv env fs).map FsOp.path = [targetPath, targetPath] ∧
    targetPath = "web/default/src/components/TokensTable.js" ∧
    writesOf (run argv env fs) = [(targetPath, patch (fs targetPath))] :=
  ⟨rfl, rfl, rfl, rfl⟩

set_option maxRecDepth 100000 in
set_option maxHeartbeats 16000000 in
/-- C9: each rule's new literal is strictly longer than its old literal, and
consequently the patcher never shortens the buffer. -/
theorem claim_C9 :
    (old_v.data.length < new_v.data.length ∧
     old_c.data.length < new_c.data.length ∧
     old_e.data.length < new_e.data.length ∧
     old_ed.data.length < new_ed.data.length ∧
     old_d.data.length < new_d.data.length) ∧
    ∀ s : List Char, s.length ≤ (patch s).length := by
  have d1 : old_v.data.length < new_v.data.length := by decide
  have d2 : old_c.data.length < new_c.data.length := by decide
  have d3 : old_e.data.length < new_e.data.length := by decide
  have d4 : old_ed.data.length < new_ed.data.length := by decide
  have d5 : old_d.data.length < new_d.data.length := by decide
  refine ⟨⟨d1, d2, d3, d4, d5⟩, fun s => ?_⟩
  show s.length ≤ (pyReplace old_d.data new_d.data
      (pyReplace old_ed.data new_ed.data
        (pyReplace old_e.data new_e.data
          (pyReplace old_c.data new_c.data
            (pyReplace old_v.data new_v.data s))))).length
  have k1 := length_le_pyReplace (le_of_lt d1) s
  have k2 := length_le_pyReplace (le_of_lt d2) (pyReplace old_v.data new_v.data s)
  have k3 := length_le_pyReplace (le_of_lt d3)
    (pyReplace old_c.data new_c.data (pyReplace old_v.data new_v.data s))
  have k4 := length_le_pyReplace (le_of_lt d4)
    (pyReplace old_e.data new_e.data
      (pyReplace old_c.data new_c.data (pyReplace old_v.data new_v.data s)))
  have k5 := length_le_pyReplace (le_of_lt d5)
    (pyReplace old_ed.data new_ed.data
      (pyReplace old_e.data new_e.data
        (pyReplace old_c.data new_c.data (pyReplace old_v.data new_v.data s))))
  omega

/-- C10: the written output content is a pure function of the target file's
prior content — two runs whose filesystems agree on the target path produce
byte-identical writes, whatever their arguments and environments. -/
theorem claim_C10 (fs1 fs2 : String → List Char) (argv1 argv2 : List String)
    (env1 env2 : String → Option String) (h : fs1 targetPath = fs2 targetPath) :
    writesOf (run argv1 env1 fs1) = writesOf (run argv2 env2 fs2) := by
  show [(targetPath, patch (fs1 targetPath))] = [(targetPath, patch (fs2 targetPath))]
  rw [h]

/-- C10 witness: two concrete runs with different arguments and environments
but the same file content produce the same writes. -/
theorem claim_C10_witness :
    writesOf (run ["x"] (fun _ => none) (fun _ => [])) =
      writesOf (run [] (fun v => some v) (fun _ => [])) :=
  claim_C10 (fun _ => []) (fun _ => []) ["x"] [] (fun _ => none) (fun v => some v) rfl

/-- C2: a rule whose old literal does not occur in the buffer returns the
buffer unchanged (a silent no-op), and a buffer matched by none of the five
rules passes through the whole patcher unchanged. -/
theorem claim_C2 :
    (∀ r ∈ rules, ∀ s : List Char, hasInfixB r.1.data s = false → applyRule r s = s) ∧
    (∀ s : List Char, (∀ r ∈ rules, hasInfixB r.1.data s = false) → patch s = s) := by
  constructor
  · intro r _ s hs
    exact pyReplace_of_no_occurrence r.2.data hs
  · intro s hs
    exact patch_of_no_match s hs

/-- C2 witness: a concrete buffer containing none of the old literals is left
unchanged by rule 1 and by the whole patcher. -/
theorem claim_C2_witness :
    applyRule (old_v, new_v) "no tokens table here".data = "no tokens table here".data ∧
    patch "no tokens table here".data = "no tokens table here".data :=
  ⟨claim_C2.1 (old_v, new_v) (by simp [rules]) _ (by decide),
   claim_C2.2 _ (by decide)⟩

/-- C1: each of the five rules, applied to a buffer containing its old literal
(with no occurrence elsewhere), yields the buffer with that literal replaced by
the rule's new literal, byte-for-byte unchanged outside the matched span. -/
theorem claim_C1 (r : String × String) (_hr : r ∈ rules) (p q : List Char)
    (h1 : hasInfixB r.1.data (p ++ r.1.data).dropLast = false)
    (h2 : hasInfixB r.1.data q = false) :
    applyRule r (p ++ (r.1.data ++ q)) = p ++ (r.2.data ++ q) :=
  pyReplace_single r.2.data p q h1 h2

set_option maxRecDepth 100000 in
set_option maxHeartbeats 16000000 in
/-- C1 witness: rule 1 applied to exactly its old literal yields exactly its
new literal. -/
theorem claim_C1_witness :
    applyRule (old_v, new_v) ([] ++ (old_v.data ++ [])) = [] ++ (new_v.data ++ []) :=
  claim_C1 (old_v, new_v) (by simp [rules]) [] [] (by decide) (by decide)

set_option maxRecDepth 100000 in
set_option maxHeartbeats 64000000 in
/-- C7: rule 5's new literal splits into the visible trigger button and the
popup body; the trigger carries an accessible label but no onClick handler,
the popup opens on click and stays open while hovered, and the delete call
occurs exactly once, on the confirmation button inside the popup, which has
fallback label text. -/
theorem claim_C7 :
    new_d.data = new_dTrigger.data ++ new_dRest.data ∧
    hasInfixB "onClick".data new_dTrigger.data = false ∧
    hasInfixB "aria-label=\x7bt(\x27common:delete\x27, \x27Delete\x27)\x7d".data new_dTrigger.data = true ∧
    hasInfixB "on=\x27click\x27".data new_dRest.data = true ∧
    hasInfixB "flowing".data new_dRest.data = true ∧
    hasInfixB "hoverable".data new_dRest.data = true ∧
    hasInfixB "manageToken(token.id, \x27delete\x27, idx)".data new_dRest.data = true ∧
    hasInfixB "manageToken".data new_dTrigger.data = false ∧
    countOcc "manageToken".data new_d.data = 1 ∧
    hasInfixB "\x7bt(\x27token.confirm_delete\x27, \x27Delete Token\x27)\x7d".data new_dRest.data = true := by
  refine ⟨by decide, by decide, by decide, by decide, by decide,
    by decide, by decide, by decide, by decide, by decide⟩

set_option maxRecDepth 100000 in
set_option maxHeartbeats 64000000 in
/-- With no surrounding text at all, the concatenation of the five old blocks
satisfies every side condition of `GoodSplit`. -/
theorem goodSplit_nil : GoodSplit [] [] [] [] [] [] := by
  unfold GoodSplit
  refine ⟨by decide, by decide, by decide, by decide, by decide,
    by decide, by decide, by decide, by decide, by decide⟩

set_option maxRecDepth 100000 in
set_option maxHeartbeats 64000000 in
/-- C3 (counterexample to the unconditional reading): with surrounding text
that itself contains a copy of rule 5's old literal, the patcher also replaces
that copy, so the surrounding text is not untouched. -/
theorem claim_C3_counterexample :
    ¬ (patch ([] ++ old_v.data ++ [] ++ old_c.data ++ [] ++ old_e.data ++ [] ++ old_ed.data ++ [] ++ old_d.data ++ old_d.data) =
        [] ++ new_v.data ++ [] ++ new_c.data ++ [] ++ new_e.data ++ [] ++ new_ed.data ++ [] ++ new_d.data ++ old_d.data) := by
  intro hEq
  have s1 : pyReplace old_v.data new_v.data
      (old_v.data ++ (old_c.data ++ (old_e.data ++ (old_ed.data ++ (old_d.data ++ old_d.data))))) =
      new_v.data ++ (old_c.data ++ (old_e.data ++ (old_ed.data ++ (old_d.data ++ old_d.data)))) := by
    have hh := @pyReplace_single old_v.data new_v.data []
      (old_c.data ++ (old_e.data ++ (old_ed.data ++ (old_d.data ++ old_d.data)))) (by decide) (by decide)
    simpa using hh
  have s2 : pyReplace old_c.data new_c.data
      (new_v.data ++ (old_c.data ++ (old_e.data ++ (old_ed.data ++ (old_d.data ++ old_d.data))))) =
      new_v.data ++ (new_c.data ++ (old_e.data ++ (old_ed.data ++ (old_d.data ++ old_d.data)))) :=
    pyReplace_single new_c.data new_v.data
      (old_e.data ++ (old_ed.data ++ (old_d.data ++ old_d.data))) (by decide) (by decide)
  have s3 : pyReplace old_e.data new_e.data
      (new_v.data ++ (new_c.data ++ (old_e.data ++ (old_ed.data ++ (old_d.data ++ old_d.data))))) =
      new_v.data ++ (new_c.data ++ (new_e.data ++ (old_ed.data ++ (old_d.data ++ old_d.data)))) := by
    rw [show new_v.data ++ (new_c.data ++ (old_e.data ++ (old_ed.data ++ (old_d.data ++ old_d.data)))) =
        (new_v.data ++ new_c.data) ++ (old_e.data ++ (old_ed.data ++ (old_d.data ++ old_d.data))) from by
      simp [List.append_assoc]]
    rw [pyReplace_single new_e.data (new_v.data ++ new_c.data)
      (old_ed.data ++ (old_d.data ++ old_d.data)) (by decide) (by decide)]
    simp [List.append_assoc]
  have s4 : pyReplace old_ed.data new_ed.data
      (new_v.data ++ (new_c.data ++ (new_e.data ++ (old_ed.data ++ (old_d.data ++ old_d.data))))) =
      new_v.data ++ (new_c.data ++ (new_e.data ++ (new_ed.data ++ (old_d.data ++ old_d.data)))) := by
    rw [show new_v.data ++ (new_c.data ++ (new_e.data ++ (old_ed.data ++ (old_d.data ++ old_d.data)))) =
        (new_v.data ++ new_c.data ++ new_e.data) ++ (old_ed.data ++ (old_d.data ++ old_d.data)) from by
      simp [List.append_assoc]]
    rw [pyReplace_single new_ed.data (new_v.data ++ new_c.data ++ new_e.data)
      (old_d.data ++ old_d.data) (by decide) (by decide)]
    simp [List.append_assoc]
  have s5 : pyReplace old_d.data new_d.data
      (new_v.data ++ (new_c.data ++ (new_e.data ++ (new_ed.data ++ (old_d.data ++ old_d.data))))) =
      new_v.data ++ (new_c.data ++ (new_e.data ++ (new_ed.data ++ (new_d.data ++ new_d.data)))) := by
    rw [show new_v.data ++ (new_c.data ++ (new_e.data ++ (new_ed.data ++ (old_d.data ++ old_d.data)))) =
        (new_v.data ++ new_c.data ++ new_e.data ++ new_ed.data) ++ (old_d.data ++ old_d.data) from by
      simp [List.append_assoc]]
    rw [pyReplace_head new_d.data (new_v.data ++ new_c.data ++ new_e.data ++ new_ed.data)
      old_d.data (by decide)]
    rw [show pyReplace old_d.data new_d.data old_d.data = new_d.data from by
      have hh := @pyReplace_single old_d.data new_d.data [] [] (by decide) (by decide)
      simpa using hh]
    simp [List.append_assoc]
  have hval : patch ([] ++ old_v.data ++ [] ++ old_c.data ++ [] ++ old_e.data ++ [] ++ old_ed.data ++ [] ++ old_d.data ++ old_d.data) =
      new_v.data ++ (new_c.data ++ (new_e.data ++ (new_ed.data ++ (new_d.data ++ new_d.data)))) := by
    show pyReplace old_d.data new_d.data
        (pyReplace old_ed.data new_ed.data
          (pyReplace old_e.data new_e.data
            (pyReplace old_c.data new_c.data
              (pyReplace old_v.data new_v.data
                ([] ++ old_v.data ++ [] ++ old_c.data ++ [] ++ old_e.data ++ [] ++ old_ed.data ++ [] ++ old_d.data ++ old_d.data))))) = _
    rw [show ([] ++ old_v.data ++ [] ++ old_c.data ++ [] ++ old_e.data ++ [] ++ old_ed.data ++ [] ++ old_d.data ++ old_d.data : List Char) =
        old_v.data ++ (old_c.data ++ (old_e.data ++ (old_ed.data ++ (old_d.data ++ old_d.data)))) from by
      simp [List.append_assoc]]
    rw [s1, s2, s3, s4, s5]
  have hVE : new_v.data ++ (new_c.data ++ (new_e.data ++ (new_ed.data ++ (new_d.data ++ new_d.data)))) =
      [] ++ new_v.data ++ [] ++ new_c.data ++ [] ++ new_e.data ++ [] ++ new_ed.data ++ [] ++ new_d.data ++ old_d.data := by
    rw [← hval]
    exact hEq
  simp only [List.append_assoc, List.nil_append, List.append_cancel_left_eq] at hVE
  exact absurd hVE (by decide)

/-- C3 (amended): a buffer consisting of the five old blocks in order, with
surrounding text that introduces no further occurrence of any rule's old
literal, patches to the five new blocks with the surrounding text untouched. -/
theorem claim_C3 (t0 t1 t2 t3 t4 t5 : List Char) (h : GoodSplit t0 t1 t2 t3 t4 t5) :
    patch (t0 ++ old_v.data ++ t1 ++ old_c.data ++ t2 ++ old_e.data ++ t3 ++ old_ed.data ++ t4 ++ old_d.data ++ t5) =
      t0 ++ new_v.data ++ t1 ++ new_c.data ++ t2 ++ new_e.data ++ t3 ++ new_ed.data ++ t4 ++ new_d.data ++ t5 :=
  patch_split t0 t1 t2 t3 t4 t5 h

/-- C3 witness: the bare concatenation of the five old blocks patches to the
bare concatenation of the five new blocks. -/
theorem claim_C3_witness :
    patch ([] ++ old_v.data ++ [] ++ old_c.data ++ [] ++ old_e.data ++ [] ++ old_ed.data ++ [] ++ old_d.data ++ []) =
      [] ++ new_v.data ++ [] ++ new_c.data ++ [] ++ new_e.data ++ [] ++ new_ed.data ++ [] ++ new_d.data ++ [] :=
  claim_C3 [] [] [] [] [] [] goodSplit_nil

end UpdateTokensTable
